/-
Verification of the sqlsprinkler client library (system.py, zone.py).

The library is a thin HTTP client: every method serializes a small JSON
payload, issues one HTTP request, and maps the response onto updated
in-memory fields or a raised exception.  We embed it shallowly: each
Python method becomes a Lean function from the object's state and the
responses the server would give to (new state, outcome, list of HTTP
requests issued).  Python mutates objects in place and exceptions leave
the mutated object behind, so mutating methods always return the final
object state alongside an `Except` outcome.
-/
import Mathlib

set_option linter.unusedVariables false

/-- Decoded JSON zone record as served by the zone-info endpoint
(fields `id, name, gpio, time, enabled, auto_off, system_order, state`,
see spec section 6 and zone.py lines 47-53). -/
structure ZoneRecord where
  id : Int
  name : String
  gpio : Int
  time : Int
  enabled : Bool
  auto_off : Bool
  system_order : Int
  state : Bool
deriving DecidableEq, Repr

/-- Value held in the Python `Zone.name` attribute.  Python is dynamically
typed: `name` normally holds a string, but `System._fetch_zones`
(system.py line 33) calls `Zone(zone)` with a decoded JSON dict as the
first positional argument, which the dataclass stores verbatim in `name`. -/
inductive PyName where
  | str (s : String)
  | dict (d : ZoneRecord)
deriving DecidableEq, Repr

/-- The Zone dataclass (zone.py lines 7-18).  Field order follows the
source declaration: `name, gpio, time, enabled, auto_off, system_order,
state, id`.  `host = "none"` in the source carries no type annotation, so
it is a class attribute, not a dataclass field; it is modelled by
`Zone.host` below. -/
structure Zone where
  name : PyName
  gpio : Int
  time : Int
  enabled : Bool
  auto_off : Bool
  system_order : Int
  state : Bool
  id : Int
deriving DecidableEq, Repr

/-- Class attribute `host = "none"` (zone.py line 10): shared, never set
per instance anywhere in the two source files, so every Zone reads
`"none"`. -/
def Zone.host (_ : Zone) : String := "none"

/-- Construction `Zone(zone)` with one positional argument holding a
decoded JSON dict (system.py line 33).  The dataclass binds the argument
to its first field `name`; every other field keeps its
`field(default_factory=...)` default: `0`, `false`, or the empty value. -/
def Zone.of_dict (d : ZoneRecord) : Zone :=
  { name := PyName.dict d, gpio := 0, time := 0, enabled := false,
    auto_off := false, system_order := 0, state := false, id := 0 }

/-- Body of the POST issued by `System.add_zone` (system.py lines 98-104):
exactly the five keys `name, gpio, time, enabled, auto_off`. -/
structure AddZonePayload where
  name : PyName
  gpio : Int
  time : Int
  enabled : Bool
  auto_off : Bool
deriving DecidableEq, Repr

/-- Body of the PUT issued by `Zone.update_other` (zone.py lines 97-105):
`id` plus the six configuration fields under capitalized key names. -/
structure ZoneUpdatePayload where
  id : Int
  Name : PyName
  GPIO : Int
  Time : Int
  Enabled : Bool
  Autooff : Bool
  SystemOrder : Int
deriving DecidableEq, Repr

/-- HTTP requests the client can issue, one constructor per
(method, endpoint, body shape) combination appearing in the source. -/
inductive HttpRequest where
  | getZoneInfo (host : String)
  | getZoneInfoId (host : String) (id : Int)
  | getSystemState (host : String)
  | putSystemState (host : String) (system_state : Bool)
  | putZoneState (host : String) (id : Int) (state : Bool)
  | postZone (host : String) (body : AddZonePayload)
  | deleteZoneReq (host : String) (id : Int)
  | putZoneUpdate (host : String) (body : ZoneUpdatePayload)
  | putZoneOrder (host : String) (order : List Int)
deriving DecidableEq, Repr

/-- Exceptions raised by the source, one constructor per raise site,
carrying the data interpolated into the Python message.
`failedSetSystemState`, `failedAddZone`, `failedDeleteZone`,
`failedUpdateZoneOrder` and `zoneUpdateFailed` are the non-200
`Exception(f"Failed to ...")` raises (the spec's OperationError);
`zoneNotFound` is `Exception(f"Zone {id} not found")` (NotFoundError);
`typeErrorUpdateArity` is the TypeError Python raises at
`zone.update(zone_to_update)` (system.py line 129), because
`Zone.update` (zone.py line 39) accepts no positional argument besides
`self`. -/
inductive Err where
  | failedSetSystemState (st : Bool)
  | zoneNotFound (zone_id : Int)
  | failedAddZone (z : Zone)
  | failedDeleteZone (zone_id : Int)
  | failedUpdateZoneOrder (order : List Int)
  | zoneUpdateFailed (status : Nat) (payload : ZoneUpdatePayload)
  | typeErrorUpdateArity
deriving DecidableEq, Repr

/-- Classifies the raise sites the spec's taxonomy calls OperationError:
the explicit non-200 raises. -/
def Err.isOperationError : Err → Bool
  | .failedSetSystemState _ => true
  | .failedAddZone _ => true
  | .failedDeleteZone _ => true
  | .failedUpdateZoneOrder _ => true
  | .zoneUpdateFailed _ _ => true
  | _ => false

/-- Classifies the raise site the spec's taxonomy calls NotFoundError. -/
def Err.isNotFoundError : Err → Bool
  | .zoneNotFound _ => true
  | _ => false

/-- Zone.turn_on (zone.py lines 20-28): sets `self.state = True`, then
PUTs `{"id": self.id, "state": self.state}` to the zone-state endpoint.
`respStatus` is the status the server answers with; the source never
reads it (the `requests.put` return value is discarded). -/
def Zone.turn_on (z : Zone) (respStatus : Nat) : Zone × List HttpRequest :=
  let z2 := { z with state := true }
  (z2, [HttpRequest.putZoneState z2.host z2.id z2.state])

/-- Zone.turn_off (zone.py lines 30-37): sets `self.state = False`, then
PUTs `{"id": self.id, "state": self.state}`; the response status is
never read. -/
def Zone.turn_off (z : Zone) (respStatus : Nat) : Zone × List HttpRequest :=
  let z2 := { z with state := false }
  (z2, [HttpRequest.putZoneState z2.host z2.id z2.state])

/-- Zone.update (zone.py lines 39-53): one GET of the per-id zone-info
endpoint, then overwrites the seven non-id fields from the decoded
response.  Takes no peer argument. -/
def Zone.update (z : Zone) (resp : ZoneRecord) : Zone × List HttpRequest :=
  ({ z with name := PyName.str resp.name, gpio := resp.gpio, time := resp.time,
            enabled := resp.enabled, auto_off := resp.auto_off,
            system_order := resp.system_order, state := resp.state },
   [HttpRequest.getZoneInfoId z.host z.id])

/-- Zone.update_other (zone.py lines 83-108): first copies the six
configuration fields `name, gpio, time, enabled, auto_off, system_order`
from `other` into `self`, then PUTs the full capitalized payload; a
non-200 status raises after the copy, so the mutation persists. -/
def Zone.update_other (z other : Zone) (respStatus : Nat) :
    Zone × Except Err Unit × List HttpRequest :=
  let z2 := { z with name := other.name, gpio := other.gpio, time := other.time,
                     enabled := other.enabled, auto_off := other.auto_off,
                     system_order := other.system_order }
  let payload : ZoneUpdatePayload :=
    { id := z2.id, Name := z2.name, GPIO := z2.gpio, Time := z2.time,
      Enabled := z2.enabled, Autooff := z2.auto_off, SystemOrder := z2.system_order }
  let reqs := [HttpRequest.putZoneUpdate z2.host payload]
  if respStatus ≠ 200 then
    (z2, Except.error (Err.zoneUpdateFailed respStatus payload), reqs)
  else
    (z2, Except.ok (), reqs)

/-- Zone.enable (zone.py lines 55-57): `self.enabled = True` then
`self.update_other(self)`. -/
def Zone.enable (z : Zone) (respStatus : Nat) :
    Zone × Except Err Unit × List HttpRequest :=
  let z1 := { z with enabled := true }
  z1.update_other z1 respStatus

/-- Zone.disable (zone.py lines 59-61): `self.enabled = False` then
`self.update_other(self)`. -/
def Zone.disable (z : Zone) (respStatus : Nat) :
    Zone × Except Err Unit × List HttpRequest :=
  let z1 := { z with enabled := false }
  z1.update_other z1 respStatus

/-- Zone.set_time (zone.py lines 63-65). -/
def Zone.set_time (z : Zone) (t : Int) (respStatus : Nat) :
    Zone × Except Err Unit × List HttpRequest :=
  let z1 := { z with time := t }
  z1.update_other z1 respStatus

/-- Zone.set_gpio (zone.py lines 67-69). -/
def Zone.set_gpio (z : Zone) (g : Int) (respStatus : Nat) :
    Zone × Except Err Unit × List HttpRequest :=
  let z1 := { z with gpio := g }
  z1.update_other z1 respStatus

/-- Zone.set_name (zone.py lines 71-73). -/
def Zone.set_name (z : Zone) (n : String) (respStatus : Nat) :
    Zone × Except Err Unit × List HttpRequest :=
  let z1 := { z with name := PyName.str n }
  z1.update_other z1 respStatus

/-- Zone.set_auto_off (zone.py lines 75-77). -/
def Zone.set_auto_off (z : Zone) (a : Bool) (respStatus : Nat) :
    Zone × Except Err Unit × List HttpRequest :=
  let z1 := { z with auto_off := a }
  z1.update_other z1 respStatus

/-- Zone.set_system_order (zone.py lines 79-81). -/
def Zone.set_system_order (z : Zone) (o : Int) (respStatus : Nat) :
    Zone × Except Err Unit × List HttpRequest :=
  let z1 := { z with system_order := o }
  z1.update_other z1 respStatus

/-- The System dataclass (system.py lines 10-15) plus the instance
attribute `state` that `_update_system_state` (system.py line 68)
creates by assignment.  `state` is distinct from the declared dataclass
field `system_state`; since `__post_init__` always runs
`_update_system_state` before any client code can read `state`, it is
modelled as an always-present field whose initial value is overwritten
during construction. -/
structure System where
  zones : List Zone
  system_state : Bool
  host : String
  state : Bool
deriving DecidableEq, Repr

/-- System._fetch_zones (system.py lines 25-34): GET the zone-info
endpoint (`resp` is the decoded JSON array), build `Zone(zone)` for each
record in order, and return the resulting list. -/
def System._fetch_zones (sys : System) (resp : List ZoneRecord) :
    List Zone × List HttpRequest :=
  (resp.map Zone.of_dict, [HttpRequest.getZoneInfo sys.host])

/-- System.get_zones (system.py lines 36-42): calls `self._fetch_zones()`
discarding its return value, then returns `self.zones` unchanged. -/
def System.get_zones (sys : System) (resp : List ZoneRecord) :
    List Zone × List HttpRequest :=
  let fetched := sys._fetch_zones resp
  (sys.zones, fetched.2)

/-- System._update_system_state (system.py lines 63-68): GET the
system-state endpoint and assign the decoded `"system_state"` value to
the attribute `self.state` (not to the field `system_state`). -/
def System._update_system_state (sys : System) (resp : Bool) :
    System × List HttpRequest :=
  ({ sys with state := resp }, [HttpRequest.getSystemState sys.host])

/-- System.get_system_state (system.py lines 44-50): runs
`_update_system_state` then returns `self.state`. -/
def System.get_system_state (sys : System) (resp : Bool) :
    System × Bool × List HttpRequest :=
  let (s, reqs) := sys._update_system_state resp
  (s, s.state, reqs)

/-- System.set_system_state (system.py lines 52-61): PUT
`{"system_state": state}`; a non-200 status raises
`Exception(f"Failed to set system state {state}")` before any local
change; on 200 it re-fetches via `_update_system_state` (the GET answers
`getResp`). -/
def System.set_system_state (sys : System) (st : Bool) (putStatus : Nat)
    (getResp : Bool) : System × Except Err Unit × List HttpRequest :=
  let req1 := HttpRequest.putSystemState sys.host st
  if putStatus ≠ 200 then
    (sys, Except.error (Err.failedSetSystemState st), [req1])
  else
    let (sys2, reqs2) := sys._update_system_state getResp
    (sys2, Except.ok (), req1 :: reqs2)

/-- System.get_zone_by_id (system.py lines 87-90):
`next(filter(lambda zone: zone.id == zone_id, self.zones), None)` —
first zone of the in-memory list with the given id, or None. -/
def System.get_zone_by_id (sys : System) (zone_id : Int) : Option Zone :=
  sys.zones.find? (fun z => z.id == zone_id)

/-- Replacement for in-place mutation of the object returned by
`get_zone_by_id`: that object is the first list element with the given
id, so mutating it updates that one position of `zones`. -/
def replaceFirstById : List Zone → Int → Zone → List Zone
  | [], _, _ => []
  | w :: ws, i, z => if w.id == i then z :: ws else w :: replaceFirstById ws i z

/-- System.update_zone_state (system.py lines 70-85): look the zone up by
id (raising `Exception(f"Zone {zone_id} not found")` on a miss, before
any HTTP traffic); on a hit call its `turn_on`/`turn_off` according to
`st` (mutating that element of `self.zones` in place), then call
`self._fetch_zones()` whose return value is discarded. -/
def System.update_zone_state (sys : System) (zone_id : Int) (st : Bool)
    (zoneStatus : Nat) (zonesResp : List ZoneRecord) :
    System × Except Err Unit × List HttpRequest :=
  match sys.get_zone_by_id zone_id with
  | none => (sys, Except.error (Err.zoneNotFound zone_id), [])
  | some z =>
    let (z2, reqs1) := if st then z.turn_on zoneStatus else z.turn_off zoneStatus
    let sys2 := { sys with zones := replaceFirstById sys.zones zone_id z2 }
    let fetched := sys2._fetch_zones zonesResp
    (sys2, Except.ok (), reqs1 ++ fetched.2)

/-- System.add_zone (system.py lines 92-108): POST the five-field
creation payload; a non-200 status raises
`Exception(f"Failed to add zone {zone}")`; on 200 run
`self.zones = self.get_zones()` (the GET answers `zonesResp`). -/
def System.add_zone (sys : System) (z : Zone) (postStatus : Nat)
    (zonesResp : List ZoneRecord) : System × Except Err Unit × List HttpRequest :=
  let payload : AddZonePayload :=
    { name := z.name, gpio := z.gpio, time := z.time,
      enabled := z.enabled, auto_off := z.auto_off }
  let req1 := HttpRequest.postZone sys.host payload
  if postStatus ≠ 200 then
    (sys, Except.error (Err.failedAddZone z), [req1])
  else
    let (zs, reqs2) := sys.get_zones zonesResp
    ({ sys with zones := zs }, Except.ok (), req1 :: reqs2)

/-- System.delete_zone (system.py lines 110-118): DELETE with body
`{"id": zone_id}`; a non-200 status raises
`Exception(f"Failed to delete zone {zone_id}")`; no local field is
touched in either case. -/
def System.delete_zone (sys : System) (zone_id : Int) (delStatus : Nat) :
    System × Except Err Unit × List HttpRequest :=
  let req1 := HttpRequest.deleteZoneReq sys.host zone_id
  if delStatus ≠ 200 then
    (sys, Except.error (Err.failedDeleteZone zone_id), [req1])
  else
    (sys, Except.ok (), [req1])

/-- System.update_zone (system.py lines 120-130): look the argument's id
up (raising `Exception(f"Zone {zone.id} not found")` on a miss); on a
hit the source runs `zone.update(zone_to_update)`, passing a positional
argument to `Zone.update`, which accepts none besides `self`
(zone.py line 39) — Python raises
`TypeError: update() takes 1 positional argument but 2 were given`
before any HTTP request, merge, or zone-list refresh happens. -/
def System.update_zone (sys : System) (z : Zone) :
    System × Except Err Unit × List HttpRequest :=
  match sys.get_zone_by_id z.id with
  | none => (sys, Except.error (Err.zoneNotFound z.id), [])
  | some _ => (sys, Except.error Err.typeErrorUpdateArity, [])

/-- System.update_zone_order (system.py lines 132-141): PUT
`{"order": zone_order}`; a non-200 status raises
`Exception(f"Failed to update zone order {zone_order}")`; on 200 run
`self.zones = self.get_zones()` (the GET answers `zonesResp`). -/
def System.update_zone_order (sys : System) (zone_order : List Int)
    (putStatus : Nat) (zonesResp : List ZoneRecord) :
    System × Except Err Unit × List HttpRequest :=
  let req1 := HttpRequest.putZoneOrder sys.host zone_order
  if putStatus ≠ 200 then
    (sys, Except.error (Err.failedUpdateZoneOrder zone_order), [req1])
  else
    let (zs, reqs2) := sys.get_zones zonesResp
    ({ sys with zones := zs }, Except.ok (), req1 :: reqs2)

/-- Construction `System(host=host)` (system.py lines 10-23): the
dataclass `__init__` sets `zones = []`, `system_state = False` and the
given `host`, then `__post_init__` runs
`self.zones = self.get_zones()` (the zone-info GET answers `zoneResp`)
followed by `self.system_state = self.get_system_state()` (the
system-state GET answers `stateResp`).  The `state := false` in the
initial record stands for the not-yet-created `state` attribute, which
is unreadable until `get_system_state` assigns it. -/
def System.construct (host : String) (zoneResp : List ZoneRecord)
    (stateResp : Bool) : System × List HttpRequest :=
  let sys0 : System := { zones := [], system_state := false, host := host, state := false }
  let (zs, reqs1) := sys0.get_zones zoneResp
  let sys1 := { sys0 with zones := zs }
  let (sys2, v, reqs2) := sys1.get_system_state stateResp
  let sys3 := { sys2 with system_state := v }
  (sys3, reqs1 ++ reqs2)

/-- Operations of the get/set system-state interface, for stating
properties of arbitrary call sequences. -/
inductive SysOp where
  | getState (resp : Bool)
  | setState (st : Bool) (putStatus : Nat) (getResp : Bool)
deriving DecidableEq, Repr

/-- Runs a sequence of get_system_state / set_system_state calls,
keeping the System state threaded through (outcomes and requests
dropped). -/
def runOps (sys : System) : List SysOp → System
  | [] => sys
  | SysOp.getState r :: ops => runOps (sys.get_system_state r).1 ops
  | SysOp.setState st p g :: ops => runOps (sys.set_system_state st p g).1 ops

/-- Zone record of the spec's construction example
(`{"id":1,"name":"Front","gpio":4,"time":300,"enabled":true,
"auto_off":false,"system_order":0,"state":false}`). -/
def rec1 : ZoneRecord :=
  { id := 1, name := "Front", gpio := 4, time := 300, enabled := true,
    auto_off := false, system_order := 0, state := false }

/-- The Zone the spec's example expects `rec1` to decode into. -/
def zoneA : Zone :=
  { name := PyName.str "Front", gpio := 4, time := 300, enabled := true,
    auto_off := false, system_order := 0, state := false, id := 1 }

/-- A zone with the same id as `zoneA` but different configuration. -/
def zoneB : Zone :=
  { name := PyName.str "New", gpio := 7, time := 600, enabled := false,
    auto_off := true, system_order := 2, state := false, id := 1 }

/-- System for host `http://x` constructed while the server reports no
zones and a False system state. -/
def sysEmpty : System := (System.construct "http://x" [] false).1

/-- Reachable System holding `zoneA`: `System(zones=[zoneA],
host="http://x")`, with the construction-time system-state GET answering
False. -/
def sys1 : System :=
  { zones := [zoneA], system_state := false, host := "http://x", state := false }

/-- Neither `get_system_state` nor `set_system_state` ever assigns the
`system_state` dataclass field, so running any sequence of them
preserves it. -/
theorem runOps_preserves_system_state (ops : List SysOp) (sys : System) :
    (runOps sys ops).system_state = sys.system_state := by
  induction ops generalizing sys with
  | nil => rfl
  | cons op ops ih =>
    cases op with
    | getState r =>
      rw [runOps, ih]
      rfl
    | setState st p g =>
      rw [runOps, ih]
      by_cases h : p = 200 <;>
        simp [System.set_system_state, System._update_system_state, h]

/-- C1: the claim says `get_zones()` re-fetches the zone list and returns
one Zone per record with fields equal to the decoded JSON.  Evaluated at
the failing input (the empty system, the zone-info endpoint answering
`[rec1]`): `get_zones` discards the fetched list and returns the stale
in-memory `[]`, and the Zone the fetch builds via `Zone(zone)` stores
the whole record dict in `name` with every other field left at its
dataclass default, so no round-tripped Zone is ever produced. -/
theorem C1_get_zones_no_roundtrip :
    (sysEmpty.get_zones [rec1]).1 = [] ∧
    (System._fetch_zones sysEmpty [rec1]).1 = [Zone.of_dict rec1] ∧
    (Zone.of_dict rec1).name = PyName.dict rec1 ∧
    (Zone.of_dict rec1).id = 0 ∧
    (Zone.of_dict rec1).gpio = 0 ∧
    (Zone.of_dict rec1).time = 0 ∧
    Zone.of_dict rec1 ≠ zoneA := by
  refine ⟨rfl, rfl, rfl, rfl, rfl, rfl, ?_⟩
  decide

/-- C2: constructing a System for `http://x` against the spec's example
responses does perform the two GETs (zone-info then system-state) and
does set `system_state` to the fetched value, but `zones` stays at the
pre-fetch default `[]` instead of the decoded `[zoneA]`, because
`get_zones` discards what `_fetch_zones` returned. -/
theorem C2_construct_zones_stay_empty :
    (System.construct "http://x" [rec1] false).1.zones = [] ∧
    (System.construct "http://x" [rec1] false).1.zones ≠ [zoneA] ∧
    (System.construct "http://x" [rec1] false).1.system_state = false ∧
    (System.construct "http://x" [rec1] false).2 =
      [HttpRequest.getZoneInfo "http://x", HttpRequest.getSystemState "http://x"] := by
  refine ⟨rfl, ?_, rfl, rfl⟩
  decide

/-- C3: `update_zone` on a zone whose id is present raises the TypeError
from `zone.update(zone_to_update)` — `Zone.update` takes no positional
argument — so no merge, no PUT and no zone-list refresh happen (the
request list is empty and the System is unchanged); on an absent id it
raises the zone-not-found exception. -/
theorem C3_update_zone_raises_type_error :
    sys1.update_zone zoneB = (sys1, Except.error Err.typeErrorUpdateArity, []) ∧
    sysEmpty.update_zone zoneB = (sysEmpty, Except.error (Err.zoneNotFound 1), []) := by
  exact ⟨rfl, rfl⟩

/-- C4 counterexample: `set_time` reaches the zone-update PUT; with the
server answering 500 the call raises the OperationError, yet the local
`time` field has already been changed from 300 to 10 — so turn_on and
turn_off are not the sole operations that mutate local state regardless
of the response status. -/
theorem C4_counterexample_set_time_mutates :
    (zoneA.set_time 10 500).1.time = 10 ∧
    zoneA.time = 300 ∧
    (zoneA.set_time 10 500).2.1 =
      Except.error (Err.zoneUpdateFailed 500
        { id := 1, Name := PyName.str "Front", GPIO := 4, Time := 10,
          Enabled := true, Autooff := false, SystemOrder := 0 }) := by
  exact ⟨rfl, rfl, rfl⟩

/-- C4 (amended): for the system-state PUT, zone add POST, zone delete
DELETE and zone-order PUT, a non-200 response raises an OperationError
and leaves the local in-memory fields unchanged; `turn_on`/`turn_off`
set the local state flag and ignore the response status entirely; and
the zone-update PUT (`update_other`, reached by `enable`/`disable` and
every single-field setter such as `set_time`) copies the new field
values into the object before issuing the PUT, so a non-200 raises an
OperationError but the local mutation remains in place. -/
theorem C4_nonok_responses (sys : System) (z w : Zone) (st g : Bool)
    (i : Int) (ord : List Int) (zr : List ZoneRecord) (t : Int)
    (status : Nat) (h : status ≠ 200) :
    ((sys.set_system_state st status g).1 = sys ∧
     (sys.set_system_state st status g).2.1 =
       Except.error (Err.failedSetSystemState st) ∧
     Err.isOperationError (Err.failedSetSystemState st) = true) ∧
    ((sys.add_zone z status zr).1 = sys ∧
     (sys.add_zone z status zr).2.1 = Except.error (Err.failedAddZone z) ∧
     Err.isOperationError (Err.failedAddZone z) = true) ∧
    ((sys.delete_zone i status).1 = sys ∧
     (sys.delete_zone i status).2.1 = Except.error (Err.failedDeleteZone i)) ∧
    ((sys.update_zone_order ord status zr).1 = sys ∧
     (sys.update_zone_order ord status zr).2.1 =
       Except.error (Err.failedUpdateZoneOrder ord)) ∧
    (z.turn_on status = z.turn_on 200 ∧ (z.turn_on status).1.state = true ∧
     z.turn_off status = z.turn_off 200 ∧ (z.turn_off status).1.state = false) ∧
    ((z.update_other w status).1.name = w.name ∧
     (z.update_other w status).1.time = w.time ∧
     (z.update_other w status).2.1 = Except.error (Err.zoneUpdateFailed status
       { id := z.id, Name := w.name, GPIO := w.gpio, Time := w.time,
         Enabled := w.enabled, Autooff := w.auto_off,
         SystemOrder := w.system_order }) ∧
     Err.isOperationError (Err.zoneUpdateFailed status
       { id := z.id, Name := w.name, GPIO := w.gpio, Time := w.time,
         Enabled := w.enabled, Autooff := w.auto_off,
         SystemOrder := w.system_order }) = true) ∧
    ((z.set_time t status).1.time = t ∧
     (z.set_time t status).2.1 = Except.error (Err.zoneUpdateFailed status
       { id := z.id, Name := z.name, GPIO := z.gpio, Time := t,
         Enabled := z.enabled, Autooff := z.auto_off,
         SystemOrder := z.system_order })) := by
  simp [System.set_system_state, System.add_zone, System.delete_zone,
        System.update_zone_order, Zone.turn_on, Zone.turn_off,
        Zone.update_other, Zone.set_time, Err.isOperationError, h]

/-- Witness for C4_nonok_responses at status 500: the hypothesis holds
and the system-state PUT conjunct follows at concrete inputs. -/
theorem C4_nonok_responses_witness :
    (500 : Nat) ≠ 200 ∧
    (sys1.set_system_state true 500 false).2.1 =
      Except.error (Err.failedSetSystemState true) :=
  ⟨by decide,
   (C4_nonok_responses sys1 zoneA zoneB true false 7 [1, 2] [rec1] 42 500
     (by decide)).1.2.1⟩

/-- C5: `set_system_state b` first PUTs `{"system_state": b}`; a non-200
status yields the OperationError carrying the attempted state and leaves
the object untouched; on 200 the stored value is the one re-fetched from
the server (`g1`, written to the `state` attribute), not the request's
`b`, and a subsequent `get_system_state` returns whatever the server
echoes. -/
theorem C5_set_system_state_spec (sys : System) (b g1 g2 : Bool) (status : Nat) :
    (sys.set_system_state b status g1).2.2.head? =
      some (HttpRequest.putSystemState sys.host b) ∧
    (sys.set_system_state b status g1).2.1 =
      (if status ≠ 200 then Except.error (Err.failedSetSystemState b)
       else Except.ok ()) ∧
    (sys.set_system_state b status g1).1 =
      (if status ≠ 200 then sys else { sys with state := g1 }) ∧
    Err.isOperationError (Err.failedSetSystemState b) = true ∧
    (sys.set_system_state b 200 g1).1.state = g1 ∧
    ((sys.set_system_state b 200 g1).1.get_system_state g2).2.1 = g2 := by
  by_cases h : status = 200 <;>
    simp [System.set_system_state, System.get_system_state,
          System._update_system_state, Err.isOperationError, h]

/-- C6 counterexample: on the present id 1 (system `sys1`), with the
zone-info endpoint answering the empty list, `update_zone_state`
succeeds but leaves `zones` as the locally mutated old list instead of
the freshly decoded (empty) server list: the fetch's result is
discarded, so the in-memory list is not refreshed. -/
theorem C6_counterexample_no_refresh :
    (sys1.update_zone_state 1 true 200 []).2.1 = Except.ok () ∧
    (sys1.update_zone_state 1 true 200 []).1.zones =
      [{ zoneA with state := true }] ∧
    (System._fetch_zones sys1 []).1 = [] ∧
    (sys1.update_zone_state 1 true 200 []).1.zones ≠ [] := by
  refine ⟨rfl, rfl, rfl, ?_⟩
  decide

/-- C6 (amended): an absent id raises the zone-not-found exception with
no HTTP request issued; a present id sets that zone's state flag in the
in-memory list via turn_on/turn_off, issues the zone-state PUT (to the
Zone class attribute host "none") followed by a zone-info GET, and
discards the GET's decoded response — neither the PUT's status `ps` nor
the fetched records `zr` appear in the result, so the list is mutated
locally but never refreshed from the server. -/
theorem C6_update_zone_state_spec (sys : System) (i : Int) (b : Bool)
    (ps : Nat) (zr : List ZoneRecord) :
    sys.update_zone_state i b ps zr =
      (match sys.get_zone_by_id i with
       | none => (sys, Except.error (Err.zoneNotFound i), [])
       | some z =>
         ({ sys with zones := replaceFirstById sys.zones i { z with state := b } },
          Except.ok (),
          [HttpRequest.putZoneState "none" z.id b,
           HttpRequest.getZoneInfo sys.host])) := by
  cases hz : sys.get_zone_by_id i <;> cases b <;>
    simp [System.update_zone_state, hz, Zone.turn_on, Zone.turn_off,
          System._fetch_zones, Zone.host]

/-- C7: evaluated at the failing input — adding `zoneB` to the empty
system with the server answering 200 and the refreshed zone list
`[rec1]` — the POST body holds exactly the five creation fields (id,
state and system_order excluded), the call succeeds, but the zone list
stays empty and a subsequent `get_zones` still returns the empty list:
the added zone never becomes visible locally because `get_zones`
discards the fetched list. -/
theorem C7_add_zone_not_visible :
    (sysEmpty.add_zone zoneB 200 [rec1]).2.2 =
      [HttpRequest.postZone "http://x"
        { name := PyName.str "New", gpio := 7, time := 600,
          enabled := false, auto_off := true },
       HttpRequest.getZoneInfo "http://x"] ∧
    (sysEmpty.add_zone zoneB 200 [rec1]).2.1 = Except.ok () ∧
    (sysEmpty.add_zone zoneB 200 [rec1]).1.zones = [] ∧
    ((sysEmpty.add_zone zoneB 200 [rec1]).1.get_zones [rec1]).1 = [] := by
  exact ⟨rfl, rfl, rfl, rfl⟩

/-- C8: `delete_zone` issues exactly one DELETE with body
`{"id": zone_id}`, raises the OperationError on a non-200 status, and in
every case leaves the System — in particular its in-memory zones list —
unchanged: it never refreshes the zone list. -/
theorem C8_delete_zone_spec (sys : System) (i : Int) (status : Nat) :
    (sys.delete_zone i status).1 = sys ∧
    (sys.delete_zone i status).2.2 = [HttpRequest.deleteZoneReq sys.host i] ∧
    (sys.delete_zone i status).2.1 =
      (if status ≠ 200 then Except.error (Err.failedDeleteZone i)
       else Except.ok ()) ∧
    Err.isOperationError (Err.failedDeleteZone i) = true := by
  by_cases h : status = 200 <;>
    simp [System.delete_zone, Err.isOperationError, h]

/-- C9: `update_other` copies exactly the six configuration fields
`name, gpio, time, enabled, auto_off, system_order` from the source zone
into self and never touches `id` or `state`; the same frame property
holds through `enable`, `disable` and every single-field setter. -/
theorem C9_update_other_frame (z w : Zone) (s : String) (gp t o : Int)
    (a : Bool) (status : Nat) :
    (z.update_other w status).1 =
      { z with name := w.name, gpio := w.gpio, time := w.time,
               enabled := w.enabled, auto_off := w.auto_off,
               system_order := w.system_order } ∧
    (z.update_other w status).1.id = z.id ∧
    (z.update_other w status).1.state = z.state ∧
    ((z.enable status).1.id = z.id ∧ (z.enable status).1.state = z.state) ∧
    ((z.disable status).1.id = z.id ∧ (z.disable status).1.state = z.state) ∧
    ((z.set_time t status).1.id = z.id ∧
     (z.set_time t status).1.state = z.state) ∧
    ((z.set_gpio gp status).1.id = z.id ∧
     (z.set_gpio gp status).1.state = z.state) ∧
    ((z.set_name s status).1.id = z.id ∧
     (z.set_name s status).1.state = z.state) ∧
    ((z.set_auto_off a status).1.id = z.id ∧
     (z.set_auto_off a status).1.state = z.state) ∧
    ((z.set_system_order o status).1.id = z.id ∧
     (z.set_system_order o status).1.state = z.state) := by
  by_cases h : status = 200 <;>
    simp [Zone.update_other, Zone.enable, Zone.disable, Zone.set_time,
          Zone.set_gpio, Zone.set_name, Zone.set_auto_off,
          Zone.set_system_order, h]

/-- C10: `get_system_state` and `set_system_state` read and write the
attribute `state`, never the declared `system_state` dataclass field:
each call preserves `system_state`, reads return the freshly assigned
`state` value, and hence after construction any sequence of get/set
calls leaves `system_state` at the value `__post_init__` assigned (the
state the construction-time GET returned). -/
theorem C10_system_state_field_frozen (host : String) (zr : List ZoneRecord)
    (b : Bool) (ops : List SysOp) :
    (System.construct host zr b).1.system_state = b ∧
    (∀ (sys : System) (g : Bool),
      (sys.get_system_state g).1.system_state = sys.system_state ∧
      (sys.get_system_state g).1.state = g ∧
      (sys.get_system_state g).2.1 = g) ∧
    (∀ (sys : System) (st g : Bool) (p : Nat),
      (sys.set_system_state st p g).1.system_state = sys.system_state) ∧
    (runOps (System.construct host zr b).1 ops).system_state = b := by
  refine ⟨rfl, ?_, ?_, ?_⟩
  · intro sys g
    exact ⟨rfl, rfl, rfl⟩
  · intro sys st g p
    by_cases h : p = 200 <;>
      simp [System.set_system_state, System._update_system_state, h]
  · rw [runOps_preserves_system_state]
    rfl
